import Mathlib

/-!
Verification of the session/transcript-management chatbot
(`chatbot_with_ctx_memory.py`) against its design specification.

The embedding models:
* `Message` — one `{role, content}` entry of the transcript;
* `Json` — the universe of Python values produced by `json.loads` /
  consumed by `json.dump`;
* `jsonLoads` — a character-level JSON parser mirroring `json.loads`
  (used to decide which streamed fragments parse);
* `ChatBot.chat` — one turn: append the user message, inspect the HTTP
  outcome, assemble streamed fragments or build an error string;
* `ChatBot.summarize_messages`, `save_conversation`, `load_conversation`
  — the summarization and persistence operations;
* the main-loop auto-summarization trigger (`len(messages) > 10`).
-/

namespace Chatbot

/-- One transcript entry: a Python dict `{"role": r, "content": c}`. -/
structure Message where
  role : String
  content : String
deriving DecidableEq, Repr

/-- Python/JSON value universe: the possible results of `json.loads`.
Numeric literals keep their lexeme (their numeric value is never used). -/
inductive Json where
  | null
  | bool (b : Bool)
  | num (lexeme : String)
  | str (s : String)
  | arr (elems : List Json)
  | obj (members : List (String × Json))

/-- Whitespace accepted between JSON tokens. -/
def isJsonWs (c : Char) : Bool :=
  c = ' ' || c = '\n' || c = '\t' || c = '\r'

/-- Drop leading JSON whitespace. -/
def skipWs : List Char → List Char
  | [] => []
  | c :: cs => if isJsonWs c then skipWs cs else c :: cs

/-- Value of a hexadecimal digit, if any. -/
def hexVal (c : Char) : Option Nat :=
  if '0' ≤ c ∧ c ≤ '9' then some (c.toNat - '0'.toNat)
  else if 'a' ≤ c ∧ c ≤ 'f' then some (c.toNat - 'a'.toNat + 10)
  else if 'A' ≤ c ∧ c ≤ 'F' then some (c.toNat - 'A'.toNat + 10)
  else none

/-- Parse the body of a JSON string literal (after the opening quote),
returning the decoded string and the characters after the closing quote.
Mirrors `json.loads` strict mode: raw control characters are rejected,
and only the standard escapes are accepted. -/
def parseStrBody : List Char → Option (String × List Char)
  | [] => none
  | '"' :: rest => some ("", rest)
  | '\\' :: 'n' :: rest => (parseStrBody rest).map fun p => ("\n" ++ p.1, p.2)
  | '\\' :: 't' :: rest => (parseStrBody rest).map fun p => ("\t" ++ p.1, p.2)
  | '\\' :: 'r' :: rest => (parseStrBody rest).map fun p => ("\r" ++ p.1, p.2)
  | '\\' :: 'b' :: rest => (parseStrBody rest).map fun p => ("\x08" ++ p.1, p.2)
  | '\\' :: 'f' :: rest => (parseStrBody rest).map fun p => ("\x0c" ++ p.1, p.2)
  | '\\' :: '"' :: rest => (parseStrBody rest).map fun p => ("\"" ++ p.1, p.2)
  | '\\' :: '\\' :: rest => (parseStrBody rest).map fun p => ("\\" ++ p.1, p.2)
  | '\\' :: '/' :: rest => (parseStrBody rest).map fun p => ("/" ++ p.1, p.2)
  | '\\' :: 'u' :: a :: b :: c :: d :: rest =>
      match hexVal a, hexVal b, hexVal c, hexVal d with
      | some ha, some hb, some hc, some hd =>
          let n := ((ha * 16 + hb) * 16 + hc) * 16 + hd
          if n.isValidChar then
            (parseStrBody rest).map fun p => (String.mk [Char.ofNat n] ++ p.1, p.2)
          else none
      | _, _, _, _ => none
  | '\\' :: _ => none
  | c :: rest =>
      if c.toNat < 32 then none
      else (parseStrBody rest).map fun p => (String.mk [c] ++ p.1, p.2)

/-- Longest prefix of decimal digits. -/
def takeDigits : List Char → List Char × List Char
  | [] => ([], [])
  | c :: cs =>
      if '0' ≤ c ∧ c ≤ '9' then
        let p := takeDigits cs
        (c :: p.1, p.2)
      else ([], c :: cs)

/-- Parse a JSON number lexeme at the head of the input
(`-?(0|[1-9][0-9]*)(\.[0-9]+)?([eE][+-]?[0-9]+)?`). -/
def parseNumber (cs : List Char) : Option (String × List Char) :=
  let (sign, cs1) :=
    match cs with
    | '-' :: rest => (['-'], rest)
    | _ => (([] : List Char), cs)
  match takeDigits cs1 with
  | ([], _) => none
  | (d :: ds, cs2) =>
      if d = '0' ∧ ds ≠ [] then none
      else
        match cs2 with
        | '.' :: rest =>
            (match takeDigits rest with
             | ([], _) => none
             | (f :: fs, rest2) =>
                 parseExponent (sign ++ (d :: ds) ++ '.' :: f :: fs) rest2)
        | _ => parseExponent (sign ++ d :: ds) cs2
where
  /-- Parse an optional exponent part and finish the lexeme. -/
  parseExponent (lexeme : List Char) (cs : List Char) : Option (String × List Char) :=
    match cs with
    | 'e' :: rest => parseExpDigits lexeme ['e'] rest
    | 'E' :: rest => parseExpDigits lexeme ['E'] rest
    | _ => some (String.mk lexeme, cs)
  /-- Parse the digits (with optional sign) of an exponent. -/
  parseExpDigits (lexeme emark : List Char) (cs : List Char) :
      Option (String × List Char) :=
    let (sgn, cs1) :=
      match cs with
      | '+' :: rest => (['+'], rest)
      | '-' :: rest => (['-'], rest)
      | _ => (([] : List Char), cs)
    match takeDigits cs1 with
    | ([], _) => none
    | (e :: es, cs2) => some (String.mk (lexeme ++ emark ++ sgn ++ e :: es), cs2)

mutual

/-- Parse one JSON value at the head of the input (fuel-indexed). -/
def parseVal : Nat → List Char → Option (Json × List Char)
  | 0, _ => none
  | Nat.succ fuel, cs =>
      match skipWs cs with
      | 'n' :: 'u' :: 'l' :: 'l' :: rest => some (Json.null, rest)
      | 't' :: 'r' :: 'u' :: 'e' :: rest => some (Json.bool true, rest)
      | 'f' :: 'a' :: 'l' :: 's' :: 'e' :: rest => some (Json.bool false, rest)
      | '"' :: rest => (parseStrBody rest).map fun p => (Json.str p.1, p.2)
      | '[' :: rest =>
          (match skipWs rest with
           | ']' :: rest2 => some (Json.arr [], rest2)
           | other => (parseElems fuel other).map fun p => (Json.arr p.1, p.2))
      | '\x7b' :: rest =>
          (match skipWs rest with
           | '\x7d' :: rest2 => some (Json.obj [], rest2)
           | other => (parseMembers fuel other).map fun p => (Json.obj p.1, p.2))
      | other => (parseNumber other).map fun p => (Json.num p.1, p.2)

/-- Parse a nonempty comma-separated list of array elements, consuming
the closing bracket. -/
def parseElems : Nat → List Char → Option (List Json × List Char)
  | 0, _ => none
  | Nat.succ fuel, cs =>
      match parseVal fuel cs with
      | none => none
      | some (j, rest) =>
          match skipWs rest with
          | ',' :: rest2 =>
              (parseElems fuel rest2).map fun p => (j :: p.1, p.2)
          | ']' :: rest2 => some ([j], rest2)
          | _ => none

/-- Parse a nonempty comma-separated list of object members, consuming
the closing brace. -/
def parseMembers : Nat → List Char → Option (List (String × Json) × List Char)
  | 0, _ => none
  | Nat.succ fuel, cs =>
      match skipWs cs with
      | '"' :: rest =>
          match parseStrBody rest with
          | none => none
          | some (key, rest2) =>
              match skipWs rest2 with
              | ':' :: rest3 =>
                  match parseVal fuel rest3 with
                  | none => none
                  | some (v, rest4) =>
                      match skipWs rest4 with
                      | ',' :: rest5 =>
                          (parseMembers fuel rest5).map fun p =>
                            ((key, v) :: p.1, p.2)
                      | '\x7d' :: rest5 => some ([(key, v)], rest5)
                      | _ => none
              | _ => none
      | _ => none

end

/-- `json.loads`: parse a complete JSON document, rejecting trailing
garbage; `none` models a raised `json.JSONDecodeError`. -/
def jsonLoads (s : String) : Option Json :=
  match parseVal (2 * s.length + 4) s.toList with
  | some (j, rest) => if skipWs rest = [] then some j else none
  | none => none

/-- Whether `sub` occurs as a substring (Python `sub in s` for strings). -/
def strContains (s sub : String) : Bool :=
  (List.range (s.length + 1)).any fun i => sub.isPrefixOf (s.drop i)

/-- Python `key in v` for a decoded JSON value: key membership for a
dict, substring test for a string, element membership for a list, and
a raised `TypeError` otherwise. -/
def pyContains (key : String) : Json → Except String Bool
  | Json.obj members => Except.ok (members.any fun m => m.1 = key)
  | Json.str s => Except.ok (strContains s key)
  | Json.arr xs =>
      Except.ok (xs.any fun x => match x with | Json.str s => s = key | _ => false)
  | _ => Except.error "TypeError: argument is not iterable"

/-- Python `v[key]` for a decoded JSON value indexed by a string:
dict lookup (first binding), `KeyError`/`TypeError` otherwise. -/
def pyIndex (key : String) : Json → Except String Json
  | Json.obj members =>
      match members.find? (fun m => m.1 = key) with
      | some m => Except.ok m.2
      | none => Except.error "KeyError"
  | _ => Except.error "TypeError: value is not subscriptable by str"

/-- Python `acc += v`: succeeds only when `v` is a string. -/
def pyStr : Json → Except String String
  | Json.str s => Except.ok s
  | _ => Except.error "TypeError: can only concatenate str to str"

/-- One iteration of the streaming loop body
(`chat`, lines 91–96): parse the line; on `JSONDecodeError` skip it
(second component `true`); otherwise append `json_data["message"]["content"]`
to the accumulator when both keys are present. A `TypeError` escapes the
inner `except` and is modelled as `Except.error`. -/
def processLine (acc : String) (line : String) : Except String (String × Bool) :=
  match jsonLoads line with
  | none => Except.ok (acc, true)
  | some j => do
      let hasMsg ← pyContains "message" j
      if hasMsg then
        let msg ← pyIndex "message" j
        let hasContent ← pyContains "content" msg
        if hasContent then
          let contentVal ← pyIndex "content" msg
          let piece ← pyStr contentVal
          pure (acc ++ piece, false)
        else pure (acc, false)
      else pure (acc, false)

/-- The full streaming loop (`chat`, lines 86–96): fold over
`response.iter_lines()`, skipping falsy (empty) lines, accumulating the
assembled reply and the number of fragments skipped as unparseable. -/
def assembleFragments (lines : List String) : Except String (String × Nat) :=
  lines.foldlM
    (fun acc line =>
      if line = "" then pure acc
      else do
        let r ← processLine acc.1 line
        pure (r.1, if r.2 then acc.2 + 1 else acc.2))
    ("", 0)

/-- `ChatBot.create_initial_messages`. -/
def create_initial_messages : List Message :=
  [⟨"system", "Hello, how can I help you today?"⟩]

/-- The observable part of a `requests` response: status code, the body
as the lines yielded by `iter_lines()`, and the body as `text`. -/
structure HttpResponse where
  status_code : Nat
  lines : List String
  text : String

/-- Outcome of `requests.post`: a response, or a raised exception
(connection failure etc.). -/
inductive PostResult where
  | resp (r : HttpResponse)
  | raised (e : String)

/-- `ChatBot.chat`: append the user message, call the backend, and on
status 200 assemble the streamed reply and append it as the assistant
message; on a non-200 status return an error string; any exception is
caught by the outer `except` and converted to a "Sorry" string. Returns
the new `self.messages` and the returned string. -/
def chat (msgs : List Message) (user_input : String) (post : PostResult) :
    List Message × String :=
  let msgs1 := msgs ++ [⟨"user", user_input⟩]
  match post with
  | PostResult.raised e => (msgs1, "Sorry, something went wrong: " ++ e)
  | PostResult.resp r =>
      if r.status_code = 200 then
        match assembleFragments r.lines with
        | Except.ok p => (msgs1 ++ [⟨"assistant", p.1⟩], p.1)
        | Except.error e => (msgs1, "Sorry, something went wrong: " ++ e)
      else
        (msgs1, "Error: " ++ toString r.status_code ++ " - " ++ r.text)

/-- The last-five slice `self.messages[-5:]`. -/
def lastFive (msgs : List Message) : List Message :=
  msgs.drop (msgs.length - 5)

/-- Python `s[:50]`: the first 50 characters. -/
def pyTake50 (s : String) : String :=
  String.mk (s.data.take 50)

/-- The synthesized summary line of `ChatBot.summarize_messages`. -/
def summaryLine (retained : List Message) : String :=
  "Previous conversation summarized: " ++
    String.intercalate " " (retained.map fun m => pyTake50 m.content ++ "...")

/-- `ChatBot.summarize_messages`: one synthesized system message holding
truncated fragments of the last five messages, followed by those last
five messages themselves. -/
def summarize_messages (msgs : List Message) : List Message :=
  ⟨"system", summaryLine (lastFive msgs)⟩ :: lastFive msgs

/-- The main-loop auto-summarization step (lines 225–226): replace the
transcript by its summary exactly when it holds more than 10 messages. -/
def autoSummarize (msgs : List Message) : List Message :=
  if msgs.length > 10 then summarize_messages msgs else msgs

/-- The JSON document `json.dump` writes for one message dict. -/
def encodeMessage (m : Message) : Json :=
  Json.obj [("role", Json.str m.role), ("content", Json.str m.content)]

/-- The JSON document `json.dump` writes for the message list. -/
def encodeTranscript (msgs : List Message) : Json :=
  Json.arr (msgs.map encodeMessage)

/-- Read one `{role, content}` dict back from its JSON document. -/
def decodeMessage : Json → Option Message
  | Json.obj [("role", Json.str r), ("content", Json.str c)] => some ⟨r, c⟩
  | _ => none

/-- Read a message list back from a list of JSON documents. -/
def decodeMessages : List Json → Option (List Message)
  | [] => some []
  | j :: js =>
      match decodeMessage j with
      | some m => (decodeMessages js).map fun ms => m :: ms
      | none => none

/-- Read a transcript back from its JSON document. -/
def decodeTranscript : Json → Option (List Message)
  | Json.arr js => decodeMessages js
  | _ => none

/-- `ChatBot.save_conversation`: the JSON document written to the file
(`json.dump(self.messages, f)`). -/
def save_conversation (msgs : List Message) : Json :=
  encodeTranscript msgs

/-- The state of the conversation file when `load_conversation` runs:
missing, or present with raw contents. -/
inductive FileSource where
  | absent
  | present (raw : String)

/-- Observable outcome of `ChatBot.load_conversation`: `ok messages notice`
gives the new value of `self.messages` (as the Python value `json.load`
produced, or the seed list) and whether the not-found notice was printed;
`raised` is an exception propagating to the caller. -/
inductive LoadResult where
  | ok (messages : Json) (notice : Bool)
  | raised (e : String)

/-- Whether a load outcome is a propagated exception. -/
def LoadResult.raises : LoadResult → Bool
  | LoadResult.raised _ => true
  | _ => false

/-- `ChatBot.load_conversation`: on `FileNotFoundError` print a notice and
reset to the seed transcript; otherwise `self.messages = json.load(f)`,
and a `json.JSONDecodeError` (not caught: only `FileNotFoundError` is)
propagates to the caller. -/
def load_conversation : FileSource → LoadResult
  | FileSource.absent =>
      LoadResult.ok (encodeTranscript create_initial_messages) true
  | FileSource.present raw =>
      match jsonLoads raw with
      | some j => LoadResult.ok j false
      | none => LoadResult.raised "json.decoder.JSONDecodeError: Expecting value"

/-- Iterate successful turns of the main loop: each element carries the
user input and the body lines of a 200 response. -/
def runSuccessTurns (msgs : List Message) :
    List (String × List String) → List Message
  | [] => msgs
  | (input, lines) :: rest =>
      runSuccessTurns (chat msgs input (PostResult.resp ⟨200, lines, ""⟩)).1 rest

/-! ### Helper lemmas -/

theorem lastFive_length_of_ge (msgs : List Message) (h : 5 ≤ msgs.length) :
    (lastFive msgs).length = 5 := by
  simp only [lastFive, List.length_drop]
  omega

theorem summarize_messages_length (msgs : List Message) (h : 5 ≤ msgs.length) :
    (summarize_messages msgs).length = 6 := by
  simp only [summarize_messages, List.length_cons, lastFive_length_of_ge msgs h]

theorem lastFive_summarize (msgs : List Message) (h : 5 ≤ msgs.length) :
    lastFive (summarize_messages msgs) = lastFive msgs := by
  have h5 : (lastFive msgs).length = 5 := lastFive_length_of_ge msgs h
  show (summarize_messages msgs).drop ((summarize_messages msgs).length - 5)
      = lastFive msgs
  rw [summarize_messages_length msgs h]
  simp only [summarize_messages, List.drop_succ_cons, List.drop_zero]

theorem decodeMessages_encode (msgs : List Message) :
    decodeMessages (msgs.map encodeMessage) = some msgs := by
  induction msgs with
  | nil => rfl
  | cons m rest ih =>
      simp only [List.map_cons, decodeMessages, decodeMessage, encodeMessage,
        ih, Option.map_some]
      rfl

theorem chat_success_state (msgs : List Message) (user_input : String)
    (lines : List String) (text : String) (p : String × Nat)
    (hok : assembleFragments lines = Except.ok p) :
    chat msgs user_input (PostResult.resp ⟨200, lines, text⟩) =
      (msgs ++ [⟨"user", user_input⟩, ⟨"assistant", p.1⟩], p.1) := by
  simp [chat, hok]

/-! ### Claims -/

/-- Claim C1: the main loop triggers auto-summarization if and only if
the transcript holds more than 10 messages; when it fires it invokes
`summarize_messages` (retention 5: the retained slice is the last five
messages) and the resulting transcript has length exactly 6 — one
synthesized system message plus the five retained messages. -/
theorem auto_summarize_trigger (msgs : List Message) :
    (msgs.length > 10 →
      autoSummarize msgs = summarize_messages msgs ∧
      autoSummarize msgs =
        Message.mk "system" (summaryLine (lastFive msgs)) :: lastFive msgs ∧
      (lastFive msgs).length = 5 ∧
      (autoSummarize msgs).length = 6) ∧
    (msgs.length ≤ 10 → autoSummarize msgs = msgs) := by
  constructor
  · intro h
    have h5 : 5 ≤ msgs.length := by omega
    have heq : autoSummarize msgs = summarize_messages msgs := by
      simp [autoSummarize, h]
    refine ⟨heq, ?_, lastFive_length_of_ge msgs h5, ?_⟩
    · rw [heq]; rfl
    · rw [heq]; exact summarize_messages_length msgs h5
  · intro h
    simp [autoSummarize]
    omega

/-- Witness for C1 at a concrete 11-message transcript. -/
theorem auto_summarize_trigger_witness :
    (List.replicate 11 (Message.mk "user" "hi")).length > 10 ∧
    (autoSummarize (List.replicate 11 (Message.mk "user" "hi"))).length = 6 :=
  ⟨by decide,
   ((auto_summarize_trigger (List.replicate 11 (Message.mk "user" "hi"))).1
      (by decide)).2.2.2⟩

/-- The fragment sequence of the streamed-assembly scenario. -/
def helloFragments : List String :=
  ["\x7b\"message\":\x7b\"content\":\"Hel\"\x7d\x7d",
   "\x7b\"message\":\x7b\"content\":\"lo\"\x7d\x7d",
   "not json",
   "\x7b\"message\":\x7b\"content\":\"!\"\x7d\x7d"]

/-- Claim C2: assembling the four fragments of the scenario with a 200
status yields the reply "Hello!", with exactly one fragment (the
unparseable one) skipped and assembly continuing in arrival order;
the whole turn returns "Hello!". -/
theorem streamed_fragments_assembly :
    assembleFragments helloFragments = Except.ok ("Hello!", 1) ∧
    (chat create_initial_messages "hi"
        (PostResult.resp ⟨200, helloFragments, ""⟩)).2 = "Hello!" :=
  ⟨rfl, rfl⟩

/-- Claim C3: on a non-200 status the returned string contains the
status code and the body text, no assistant message is appended, and the
transcript ends with the user message of this turn. -/
theorem chat_http_error (msgs : List Message) (user_input : String)
    (r : HttpResponse) (h : r.status_code ≠ 200) :
    (∃ a b, (chat msgs user_input (PostResult.resp r)).2 =
        a ++ toString r.status_code ++ b) ∧
    (∃ a b, (chat msgs user_input (PostResult.resp r)).2 = a ++ r.text ++ b) ∧
    (chat msgs user_input (PostResult.resp r)).1 =
      msgs ++ [⟨"user", user_input⟩] ∧
    (chat msgs user_input (PostResult.resp r)).1.getLast? =
      some ⟨"user", user_input⟩ := by
  have hchat : chat msgs user_input (PostResult.resp r) =
      (msgs ++ [⟨"user", user_input⟩],
       "Error: " ++ toString r.status_code ++ " - " ++ r.text) := by
    simp [chat, h]
  rw [hchat]
  refine ⟨⟨"Error: ", " - " ++ r.text, ?_⟩,
          ⟨"Error: " ++ toString r.status_code ++ " - ", "", ?_⟩, rfl, ?_⟩
  · simp [String.append_assoc]
  · simp [String.append_assoc]
  · simp

/-- Witness for C3 at status 500 with body "boom". -/
theorem chat_http_error_witness :
    (500 : Nat) ≠ 200 ∧
    (chat [] "hi" (PostResult.resp ⟨500, [], "boom"⟩)).1 =
      [⟨"user", "hi"⟩] :=
  ⟨by decide,
   (chat_http_error [] "hi" ⟨500, [], "boom"⟩ (by decide)).2.2.1⟩

/-- Claim C4: `chat` is a total function into displayable strings — for
every backend outcome it returns the assembled assistant content on
success, and on failure (non-200 status, raised transport exception, or
an exception during assembly) a user-facing string embedding the
underlying error text; no error propagates to the caller. -/
theorem chat_never_propagates (msgs : List Message) (user_input : String)
    (outcome : PostResult) :
    (∀ r p, outcome = PostResult.resp r → r.status_code = 200 →
        assembleFragments r.lines = Except.ok p →
        (chat msgs user_input outcome).2 = p.1) ∧
    (∀ e, outcome = PostResult.raised e →
        ∃ a, (chat msgs user_input outcome).2 = a ++ e) ∧
    (∀ r, outcome = PostResult.resp r → r.status_code ≠ 200 →
        ∃ a b, (chat msgs user_input outcome).2 = a ++ r.text ++ b) ∧
    (∀ r e, outcome = PostResult.resp r → r.status_code = 200 →
        assembleFragments r.lines = Except.error e →
        ∃ a, (chat msgs user_input outcome).2 = a ++ e) := by
  refine ⟨?_, ?_, ?_, ?_⟩
  · rintro r p rfl h200 hok
    simp [chat, h200, hok]
  · rintro e rfl
    exact ⟨"Sorry, something went wrong: ", rfl⟩
  · rintro r rfl hne
    refine ⟨"Error: " ++ toString r.status_code ++ " - ", "", ?_⟩
    simp [chat, hne, String.append_assoc]
  · rintro r e rfl h200 herr
    refine ⟨"Sorry, something went wrong: ", ?_⟩
    simp [chat, h200, herr]

/-- Witness for C4 at a raised connection exception "boom". -/
theorem chat_never_propagates_witness :
    ∃ a, (chat [] "hi" (PostResult.raised "boom")).2 = a ++ "boom" :=
  (chat_never_propagates [] "hi" (PostResult.raised "boom")).2.1 "boom" rfl

/-- Counterexample to C5: a present but unparseable conversation file
("not json") makes `load_conversation` propagate the JSON decode error —
only `FileNotFoundError` is caught — instead of failing closed to the
seed transcript. -/
theorem load_unparseable_propagates :
    (load_conversation (FileSource.present "not json")).raises = true :=
  rfl

/-- Amended C5: when the source file is absent, `load_conversation`
resets the transcript to the seed transcript and notifies via a printed
notice instead of raising; when the file is present and parses as JSON
the parsed document replaces the transcript; but when the file is
present and unparseable the JSON decode error propagates to the caller. -/
theorem load_conversation_cases :
    (load_conversation FileSource.absent =
        LoadResult.ok (encodeTranscript create_initial_messages) true) ∧
    (∀ raw j, jsonLoads raw = some j →
        load_conversation (FileSource.present raw) = LoadResult.ok j false) ∧
    (∀ raw, jsonLoads raw = none →
        (load_conversation (FileSource.present raw)).raises = true) := by
  refine ⟨rfl, ?_, ?_⟩
  · intro raw j hj
    simp [load_conversation, hj]
  · intro raw hj
    simp [load_conversation, hj, LoadResult.raises]

/-- Witness for the amended C5 at the unparseable file "not json". -/
theorem load_conversation_cases_witness :
    jsonLoads "not json" = none ∧
    (load_conversation (FileSource.present "not json")).raises = true :=
  ⟨rfl, load_conversation_cases.2.2 "not json" rfl⟩

/-- Claim C6: restoring from a nonexistent file does not raise and
leaves the transcript equal to the single-element seed transcript —
one system message with the fixed seed content. -/
theorem restore_absent_seed :
    load_conversation FileSource.absent =
      LoadResult.ok (encodeTranscript create_initial_messages) true ∧
    (load_conversation FileSource.absent).raises = false ∧
    create_initial_messages =
      [⟨"system", "Hello, how can I help you today?"⟩] ∧
    create_initial_messages.length = 1 :=
  ⟨rfl, rfl, rfl, rfl⟩

/-- Claim C7: round-trip law — for every transcript, the JSON document
written by `save_conversation` decodes back to exactly the same ordered
`{role, content}` sequence, and `load_conversation` of a file holding
that document installs it unchanged (no summarization in between). -/
theorem save_load_round_trip (msgs : List Message) (raw : String)
    (h : jsonLoads raw = some (save_conversation msgs)) :
    load_conversation (FileSource.present raw) =
      LoadResult.ok (save_conversation msgs) false ∧
    decodeTranscript (save_conversation msgs) = some msgs := by
  constructor
  · simp [load_conversation, h]
  · show decodeMessages (msgs.map encodeMessage) = some msgs
    exact decodeMessages_encode msgs

/-- Witness for C7: the seed transcript round-trips through its
serialized file contents. -/
theorem save_load_round_trip_witness :
    jsonLoads
        "[\x7b\"role\": \"system\", \"content\": \"Hello, how can I help you today?\"\x7d]"
      = some (save_conversation create_initial_messages) ∧
    decodeTranscript (save_conversation create_initial_messages) =
      some create_initial_messages :=
  ⟨rfl,
   (save_load_round_trip create_initial_messages
      "[\x7b\"role\": \"system\", \"content\": \"Hello, how can I help you today?\"\x7d]"
      rfl).2⟩

/-- Claim C8: on a transcript of exactly 12 messages, summarization
keeps the last 5 (`drop 7`) unchanged and in order, prepends one system
message whose content is the fixed label followed by the 5 truncated
fragments (each at most 50 characters plus the "..." marker) joined by
single spaces, and the result has length 6. -/
theorem summarize_twelve (msgs : List Message) (h : msgs.length = 12) :
    (summarize_messages msgs).length = 6 ∧
    (summarize_messages msgs).head? =
      some ⟨"system", summaryLine (msgs.drop 7)⟩ ∧
    summaryLine (msgs.drop 7) =
      "Previous conversation summarized: " ++
        String.intercalate " "
          ((msgs.drop 7).map fun m => pyTake50 m.content ++ "...") ∧
    (∀ m ∈ msgs.drop 7, (pyTake50 m.content).length ≤ 50) ∧
    (msgs.drop 7).length = 5 ∧
    (summarize_messages msgs).tail = msgs.drop 7 := by
  have hlf : lastFive msgs = msgs.drop 7 := by
    simp [lastFive, h]
  refine ⟨?_, ?_, rfl, ?_, ?_, ?_⟩
  · exact summarize_messages_length msgs (by omega)
  · simp [summarize_messages, hlf]
  · intro m _
    show (String.mk (m.content.data.take 50)).length ≤ 50
    show (m.content.data.take 50).length ≤ 50
    simp [List.length_take]
  · simp [List.length_drop, h]
  · simp [summarize_messages, hlf]

/-- Witness for C8 at a concrete 12-message transcript. -/
theorem summarize_twelve_witness :
    (List.replicate 12 (Message.mk "user" "hi")).length = 12 ∧
    (summarize_messages (List.replicate 12 (Message.mk "user" "hi"))).length
      = 6 :=
  ⟨by decide,
   (summarize_twelve (List.replicate 12 (Message.mk "user" "hi"))
      (by decide)).1⟩

theorem runSuccessTurns_length (turns : List (String × List String)) :
    ∀ msgs : List Message,
      (∀ t ∈ turns, ∃ p, assembleFragments t.2 = Except.ok p) →
      (runSuccessTurns msgs turns).length = msgs.length + 2 * turns.length := by
  induction turns with
  | nil => intro msgs _; simp [runSuccessTurns]
  | cons t rest ih =>
      intro msgs hall
      obtain ⟨p, hp⟩ := hall t (List.mem_cons_self t rest)
      have hrest : ∀ u ∈ rest, ∃ p, assembleFragments u.2 = Except.ok p :=
        fun u hu => hall u (List.mem_cons_of_mem t hu)
      obtain ⟨input, lines⟩ := t
      have hstep := chat_success_state msgs input lines "" p hp
      simp only [runSuccessTurns, hstep, ih _ hrest, List.length_append,
        List.length_cons, List.length_nil]
      ring

/-- Claim C9: starting from a fresh session, after `n` successful turns
(and with no auto-summarization step applied) the transcript holds
exactly `1 + 2*n` messages: the seed system message plus one user and
one assistant message per turn. -/
theorem transcript_growth (turns : List (String × List String))
    (h : ∀ t ∈ turns, ∃ p, assembleFragments t.2 = Except.ok p) :
    (runSuccessTurns create_initial_messages turns).length
      = 1 + 2 * turns.length := by
  rw [runSuccessTurns_length turns create_initial_messages h]
  rfl

/-- Witness for C9: two successful turns with empty streamed bodies. -/
theorem transcript_growth_witness :
    (runSuccessTurns create_initial_messages
        [("hi", helloFragments), ("bye", [])]).length = 1 + 2 * 2 := by
  have h : ∀ t ∈ [("hi", helloFragments), ("bye", ([] : List String))],
      ∃ p, assembleFragments t.2 = Except.ok p := by
    intro t ht
    fin_cases ht
    · exact ⟨("Hello!", 1), rfl⟩
    · exact ⟨("", 0), rfl⟩
  exact transcript_growth [("hi", helloFragments), ("bye", [])] h

/-- Claim C10: on a transcript of at least 5 messages, summarization is
idempotent — the second application retains the same last-5 window and
recomputes the same summary line, so the result is unchanged. -/
theorem summarize_idempotent (msgs : List Message) (h : 5 ≤ msgs.length) :
    summarize_messages (summarize_messages msgs) = summarize_messages msgs := by
  have key : lastFive (summarize_messages msgs) = lastFive msgs :=
    lastFive_summarize msgs h
  show ⟨"system", summaryLine (lastFive (summarize_messages msgs))⟩ ::
      lastFive (summarize_messages msgs) =
    ⟨"system", summaryLine (lastFive msgs)⟩ :: lastFive msgs
  rw [key]

/-- Witness for C10 at a concrete 5-message transcript. -/
theorem summarize_idempotent_witness :
    5 ≤ (List.replicate 5 (Message.mk "user" "hi")).length ∧
    summarize_messages
        (summarize_messages (List.replicate 5 (Message.mk "user" "hi"))) =
      summarize_messages (List.replicate 5 (Message.mk "user" "hi")) :=
  ⟨by decide,
   summarize_idempotent (List.replicate 5 (Message.mk "user" "hi"))
     (by decide)⟩

end Chatbot
